import Mathlib

/-!
Verification of the io-lib database session manager.

The development shallowly embeds the Go package dbio (files dbio.go,
utility.go, the logger file) of the io-lib repository.  External effects
(the OS temp-file calls, the sqlite engine, the streams) are modelled by an
explicit oracle record `World` that fixes, for each fallible external call,
whether it succeeds, and by an explicit session state `SState` recording the
backing-store file, the bytes written to stdout, the lines written to stderr,
whether the database handle is open, and whether the input stream was read.
The schema bootstrap is additionally given a structural semantics over
`DBState` (the set of tables, indices and rows of the backing store).
-/

namespace IoLib

/-- Error kinds, one per `fmt.Errorf` site of dbio.go. -/
inductive Err where
  | creatingTemp
  | readingStdin
  | openingDB
  | pingingDB
  | schemaFailed
  | closingBeforeWrite
  | openingForOutput
  | writingStdout
deriving DecidableEq

/-- Observable session state: the temp backing-store file (`none` when absent
or removed), bytes on stdout, lines on stderr, whether the sql handle is
open, and whether the input stream has been read from. -/
structure SState where
  tmp : Option (List Nat)
  stdoutB : List Nat
  stderrL : List String
  dbOpen : Bool
  inputRead : Bool
deriving DecidableEq

/-- Oracle for the external calls dbio.go makes: for each fallible call,
whether it succeeds, and for each engine operation (connection ping, the
schema statements, the closing flush) the net effect it has on the bytes of
the backing-store file.  Debris fields give the bytes a failed io.Copy has
transferred before failing. -/
structure World where
  createTempOk : Bool
  copyInOk : Bool
  copyInDebris : List Nat
  sqlOpenOk : Bool
  pingOk : Bool
  pingEff : List Nat → List Nat
  schemaOk : Bool
  schemaEff : List Nat → List Nat
  closeOk : Bool
  closeEff : List Nat → List Nat
  openOutOk : Bool
  copyOutOk : Bool
  copyOutDebris : List Nat

/-- The name os.CreateTemp with pattern arty-*.db returns, abstracted. -/
def tmpName : String := "arty.db"

/-- First advisory line OutputDB prints to stderr on a terminal stdout. -/
def terminalNotice1 : String := "stdout is a terminal, skipping database output"

/-- Second advisory line OutputDB prints to stderr on a terminal stdout. -/
def terminalNotice2 : String := "pipe to a file or another component to capture the database"

/-- Fresh session state: no backing store, empty streams, no open handle. -/
def init0 : SState := ⟨none, [], [], false, false⟩

/-- From src/dbio/dbio.go lines 58-88 (readDB).  Creates the temp file; when
the input is not a terminal, copies the input stream into it (removing the
file again if the copy fails); closes the temp file handle (error ignored,
line 73); opens the sqlite handle and pings it, removing the file on either
failure. -/
def readDB (w : World) (input : List Nat) (terminal : Bool) (s : SState) :
    Except Err String × SState :=
  if !w.createTempOk then
    (.error .creatingTemp, s)
  else
    let s1 : SState := { s with tmp := some [] }
    if !terminal && !w.copyInOk then
      (.error .readingStdin,
        { s1 with tmp := none, inputRead := true })
    else
      let s2 : SState :=
        if terminal then s1 else { s1 with tmp := some input, inputRead := true }
      if !w.sqlOpenOk then
        (.error .openingDB, { s2 with tmp := none })
      else if !w.pingOk then
        (.error .pingingDB, { s2 with tmp := none, dbOpen := false })
      else
        (.ok tmpName, { s2 with dbOpen := true, tmp := s2.tmp.map w.pingEff })

/-- From src/dbio/dbio.go lines 15-26 (OpenDB).  readDB with the stdin
classifier verdict, then the schema bootstrap; a bootstrap failure closes
the handle and removes the temp file. -/
def OpenDB (w : World) (input : List Nat) (stdinTerminal : Bool) (s : SState) :
    Except Err String × SState :=
  match readDB w input stdinTerminal s with
  | (.error e, s1) => (.error e, s1)
  | (.ok path, s1) =>
      if !w.schemaOk then
        (.error .schemaFailed, { s1 with dbOpen := false, tmp := none })
      else
        (.ok path, { s1 with tmp := s1.tmp.map w.schemaEff })

/-- From src/dbio/dbio.go lines 90-106 (writeDB).  Closes the database
(flushing write-ahead state into the file), reopens the file, and copies it
to the output stream. -/
def writeDB (w : World) (s : SState) : Except Err Unit × SState :=
  if !w.closeOk then
    (.error .closingBeforeWrite, { s with dbOpen := false })
  else
    let s1 : SState := { s with dbOpen := false, tmp := s.tmp.map w.closeEff }
    match s1.tmp with
    | none => (.error .openingForOutput, s1)
    | some content =>
      if !w.openOutOk then
        (.error .openingForOutput, s1)
      else if !w.copyOutOk then
        (.error .writingStdout, { s1 with stdoutB := s1.stdoutB ++ w.copyOutDebris })
      else
        (.ok (), { s1 with stdoutB := s1.stdoutB ++ content })

/-- From src/dbio/dbio.go lines 31-42 (OutputDB).  The deferred os.Remove is
the final update setting `tmp := none` on every path.  On a terminal stdout
it prints the two advisory lines to stderr, closes the handle (close error
ignored), and succeeds. -/
def OutputDB (w : World) (stdoutTerminal : Bool) (s : SState) :
    Except Err Unit × SState :=
  let r : Except Err Unit × SState :=
    if stdoutTerminal then
      let s1 : SState := { s with stderrL := s.stderrL ++ [terminalNotice1, terminalNotice2] }
      (.ok (), { s1 with dbOpen := false, tmp := s1.tmp.map w.closeEff })
    else
      writeDB w s
  (r.1, { r.2 with tmp := none })

/-- From src/dbio/dbio.go lines 44-48 (CloseDB).  Discard path: close the
handle and remove the temp file without writing output. -/
def CloseDB (w : World) (s : SState) : SState :=
  { s with dbOpen := false, tmp := (s.tmp.map w.closeEff).bind (fun _ => none) }

/-- Column of a CREATE TABLE statement: name, declared type, whether it is
the INTEGER PRIMARY KEY AUTOINCREMENT column, whether it carries NOT NULL,
and its DEFAULT clause when present. -/
structure Column where
  name : String
  ty : String
  pk : Bool
  notNull : Bool
  dflt : Option String
deriving DecidableEq

/-- Plain NOT NULL column. -/
def col (n ty : String) : Column := ⟨n, ty, false, true, none⟩

/-- NOT NULL column with a DEFAULT clause. -/
def colD (n ty d : String) : Column := ⟨n, ty, false, true, some d⟩

/-- INTEGER PRIMARY KEY AUTOINCREMENT column. -/
def pkCol (n : String) : Column := ⟨n, "INTEGER", true, false, none⟩

/-- Columns of the ident table, src/dbio/dbio.go lines 111-126. -/
def identCols : List Column :=
  [pkCol "dataset_id",
   col "bible_id" "TEXT",
   col "audio_OT_id" "TEXT",
   col "audio_NT_id" "TEXT",
   col "text_OT_id" "TEXT",
   col "text_NT_id" "TEXT",
   col "text_source" "TEXT",
   col "language_iso" "TEXT",
   colD "asr_language_iso" "TEXT" "",
   col "version_code" "TEXT",
   col "language_id" "INTEGER",
   col "rolv_id" "INTEGER",
   col "alphabet" "TEXT",
   col "language_name" "TEXT",
   col "version_name" "TEXT"]

/-- Columns of the scripts table, src/dbio/dbio.go lines 128-147. -/
def scriptsCols : List Column :=
  [pkCol "script_id",
   col "dataset_id" "INTEGER",
   col "book_id" "TEXT",
   col "chapter_num" "INTEGER",
   col "chapter_end" "INTEGER",
   col "verse_str" "TEXT",
   col "verse_end" "TEXT",
   col "verse_num" "INTEGER",
   col "audio_file" "TEXT",
   col "script_num" "TEXT",
   colD "usfm_style" "TEXT" "",
   colD "person" "TEXT" "",
   colD "actor" "TEXT" "",
   col "script_text" "TEXT",
   colD "uroman" "TEXT" "",
   colD "script_begin_ts" "REAL" "0.0",
   colD "script_end_ts" "REAL" "0.0",
   colD "fa_score" "REAL" "0.0"]

/-- Columns of the words table, src/dbio/dbio.go lines 152-167. -/
def wordsCols : List Column :=
  [pkCol "word_id",
   col "script_id" "INTEGER",
   col "word_seq" "INTEGER",
   col "verse_num" "INTEGER",
   colD "ttype" "TEXT" "W",
   col "word" "TEXT",
   colD "uroman" "TEXT" "",
   colD "word_begin_ts" "REAL" "0.0",
   colD "word_end_ts" "REAL" "0.0",
   colD "fa_score" "REAL" "0.0",
   colD "word_enc" "TEXT" "",
   colD "src_word_enc" "TEXT" "",
   colD "word_multi_enc" "TEXT" "",
   colD "src_word_multi_enc" "TEXT" ""]

/-- Columns of the log table, src/dbio/dbio.go lines 170-175. -/
def logCols : List Column :=
  [pkCol "log_id",
   col "component" "TEXT",
   col "level" "TEXT",
   col "message" "TEXT",
   colD "created_at" "TEXT" "datetime(now)"]

/-- Structural statements of createSchema: the pragma, CREATE TABLE IF NOT
EXISTS (with STRICT flag and foreign keys as (column, referenced table,
referenced column)), and CREATE (UNIQUE) INDEX IF NOT EXISTS. -/
inductive Stmt where
  | pragma (body : String)
  | createTable (name : String) (cols : List Column) (strict : Bool)
      (fks : List (String × String × String))
  | createIndex (unique : Bool) (name : String) (table : String) (cols : List String)
deriving DecidableEq

/-- PRAGMA temp_store = MEMORY, dbio.go line 110. -/
def stmtPragma : Stmt := .pragma "temp_store = MEMORY"

/-- CREATE TABLE IF NOT EXISTS ident, dbio.go lines 111-126. -/
def stmtIdent : Stmt := .createTable "ident" identCols true []

/-- CREATE UNIQUE INDEX IF NOT EXISTS ident_bible_idx, dbio.go line 127. -/
def stmtIdentIdx : Stmt := .createIndex true "ident_bible_idx" "ident" ["bible_id"]

/-- CREATE TABLE IF NOT EXISTS scripts, dbio.go lines 128-147. -/
def stmtScripts : Stmt :=
  .createTable "scripts" scriptsCols true [("dataset_id", "ident", "dataset_id")]

/-- CREATE UNIQUE INDEX IF NOT EXISTS scripts_idx, dbio.go lines 148-149. -/
def stmtScriptsIdx : Stmt :=
  .createIndex true "scripts_idx" "scripts" ["book_id", "chapter_num", "verse_str"]

/-- CREATE INDEX IF NOT EXISTS script_num_idx, dbio.go line 150. -/
def stmtScriptNumIdx : Stmt := .createIndex false "script_num_idx" "scripts" ["script_num"]

/-- CREATE INDEX IF NOT EXISTS scripts_file_idx, dbio.go line 151. -/
def stmtScriptsFileIdx : Stmt := .createIndex false "scripts_file_idx" "scripts" ["audio_file"]

/-- CREATE TABLE IF NOT EXISTS words, dbio.go lines 152-167. -/
def stmtWords : Stmt :=
  .createTable "words" wordsCols true [("script_id", "scripts", "script_id")]

/-- CREATE UNIQUE INDEX IF NOT EXISTS words_idx, dbio.go lines 168-169. -/
def stmtWordsIdx : Stmt := .createIndex true "words_idx" "words" ["script_id", "word_seq"]

/-- CREATE TABLE IF NOT EXISTS log, dbio.go lines 170-175. -/
def stmtLog : Stmt := .createTable "log" logCols true []

/-- The fixed statement sequence of createSchema, dbio.go lines 109-176,
in source order. -/
def stmts : List Stmt :=
  [stmtPragma, stmtIdent, stmtIdentIdx, stmtScripts, stmtScriptsIdx,
   stmtScriptNumIdx, stmtScriptsFileIdx, stmtWords, stmtWordsIdx, stmtLog]

/-- Whether a statement is a CREATE TABLE. -/
def isCreateTable : Stmt → Bool
  | .createTable _ _ _ _ => true
  | _ => false

/-- Whether a statement is a CREATE INDEX. -/
def isCreateIndex : Stmt → Bool
  | .createIndex _ _ _ _ => true
  | _ => false

/-- Whether a statement is the CREATE TABLE of the given table name. -/
def declaresTable (st : Stmt) (t : String) : Bool :=
  match st with
  | .createTable n _ _ _ => n == t
  | _ => false

/-- Every foreign key of every CREATE TABLE in the list references a table
whose CREATE TABLE occurs strictly earlier in the list. -/
def fkParentsFirst (l : List Stmt) : Bool :=
  (List.range l.length).all fun k =>
    match l[k]? with
    | some (.createTable _ _ _ fks) =>
        fks.all fun fk => (l.take k).any fun st => declaresTable st fk.2.1
    | _ => true

/-- Structural state of the backing store: tables and indices that exist,
plus the data rows (each tagged with its table). -/
structure DBState where
  tables : List String
  indices : List String
  rows : List String
deriving DecidableEq

/-- Backing store of a freshly created empty file. -/
def emptyDB : DBState := ⟨[], [], []⟩

/-- Backing store right after a successful bootstrap of an empty store. -/
def bootDB : DBState :=
  ⟨["ident", "scripts", "words", "log"],
   ["ident_bible_idx", "scripts_idx", "script_num_idx", "scripts_file_idx", "words_idx"],
   []⟩

/-- Sqlite semantics of the structural statements used by createSchema:
the pragma always succeeds without structural change; CREATE TABLE IF NOT
EXISTS adds the table unless present; CREATE INDEX IF NOT EXISTS adds the
index unless present and fails when the indexed table does not exist. -/
def execStmt : Stmt → DBState → Except String DBState
  | .pragma _, d => .ok d
  | .createTable n _ _ _, d =>
      if n ∈ d.tables then .ok d
      else .ok { d with tables := d.tables ++ [n] }
  | .createIndex _ n t _, d =>
      if n ∈ d.indices then .ok d
      else if t ∈ d.tables then .ok { d with indices := d.indices ++ [n] }
      else .error ("no such table " ++ t)

/-- The loop of createSchema, dbio.go lines 177-181: execute the statements
in order, returning the first error (fail-fast). -/
def runStmts (exec : Stmt → DBState → Except String DBState) :
    List Stmt → DBState → Except String DBState
  | [], d => .ok d
  | st :: rest, d =>
      match exec st d with
      | .error e => .error e
      | .ok d1 => runStmts exec rest d1

/-- Instrumented variant of the createSchema loop that also returns the list
of statements actually handed to the engine. -/
def runStmtsT (exec : Stmt → DBState → Except String DBState) :
    List Stmt → DBState → Except String DBState × List Stmt
  | [], d => (.ok d, [])
  | st :: rest, d =>
      match exec st d with
      | .error e => (.error e, [st])
      | .ok d1 =>
          let p := runStmtsT exec rest d1
          (p.1, st :: p.2)

/-- From src/dbio/dbio.go lines 108-183 (createSchema): run the fixed
statement list against the store under the sqlite structural semantics. -/
def createSchema (d : DBState) : Except String DBState :=
  runStmts execStmt stmts d

/-- Process-level observable state for the logging shim: rows of the log
table as (component, level, message), stderr lines, and whether os.Exit has
been called. -/
structure ProcState where
  logRows : List (String × String × String)
  stderrL : List String
  exited : Bool
deriving DecidableEq

/-- From the logger file: a Logger holds the database handle (here only its
presence matters) and the component tag. -/
structure Logger where
  db : Option Unit
  component : String

/-- NewLogger from the logger file lines 18-20. -/
def NewLogger (db : Option Unit) (component : String) : Logger := ⟨db, component⟩

/-- joinArgs from the logger file lines 60-66: fmt.Sprint of each argument
joined by single spaces; arguments are taken already rendered as strings. -/
def joinArgs (args : List String) : String := String.intercalate " " args

/-- insertLog from the logger file lines 47-58: with a nil handle it returns
immediately; otherwise it inserts the row, degrading an insert failure
(oracle `insertOk`) to a WARN line on stderr. -/
def insertLog (l : Logger) (insertOk : Bool) (level message : String)
    (s : ProcState) : ProcState :=
  match l.db with
  | none => s
  | some _ =>
      if insertOk then
        { s with logRows := s.logRows ++ [(l.component, level, message)] }
      else
        { s with stderrL := s.stderrL ++
            ["WARN [" ++ l.component ++ "]: failed to write log to db"] }

/-- Info from the logger file lines 23-26: database row only. -/
def Logger.Info (l : Logger) (insertOk : Bool) (args : List String)
    (s : ProcState) : ProcState :=
  insertLog l insertOk "INFO" (joinArgs args) s

/-- Warn from the logger file lines 29-32: database row only. -/
def Logger.Warn (l : Logger) (insertOk : Bool) (args : List String)
    (s : ProcState) : ProcState :=
  insertLog l insertOk "WARN" (joinArgs args) s

/-- Error from the logger file lines 35-39: database row, then an
unconditional stderr line. -/
def Logger.Error (l : Logger) (insertOk : Bool) (args : List String)
    (s : ProcState) : ProcState :=
  let s1 := insertLog l insertOk "ERROR" (joinArgs args) s
  { s1 with stderrL := s1.stderrL ++
      ["ERROR [" ++ l.component ++ "]: " ++ joinArgs args] }

/-- Fatal from the logger file lines 42-45: Error, then os.Exit(1). -/
def Logger.Fatal (l : Logger) (insertOk : Bool) (args : List String)
    (s : ProcState) : ProcState :=
  let s1 := Logger.Error l insertOk args s
  { s1 with exited := true }

/-- From src/dbio/utility.go lines 4-10 (ZeroFill).  Go slicing of the
seven-character literal is out of range when size - len(a) exceeds 7; that
runtime panic is modelled as `none`. -/
def ZeroFill (a : String) (size : Int) : Option String :=
  if size ≤ (a.length : Int) then some a
  else if size - (a.length : Int) ≤ 7 then
    some (String.mk (List.replicate (size - (a.length : Int)).toNat (Char.ofNat 48)) ++ a)
  else none

/-- The zero-padded string ZeroFill produces on its in-range padding branch. -/
def zeroPad (a : String) (size : Int) : String :=
  String.mk (List.replicate (size - (a.length : Int)).toNat (Char.ofNat 48)) ++ a

/-- All-success oracle with identity engine effects. -/
def wOK : World :=
  ⟨true, true, [], true, true, fun b => b, true, fun b => b, true, fun b => b,
   true, true, []⟩

/-- Oracle whose input copy fails, everything else succeeding. -/
def wCopyFail : World :=
  ⟨true, false, [], true, true, fun b => b, true, fun b => b, true, fun b => b,
   true, true, []⟩

/-- Engine that rejects the CREATE TABLE of the scripts table and otherwise
behaves like the structural sqlite semantics. -/
def execFailScripts (st : Stmt) (d : DBState) : Except String DBState :=
  match st with
  | .createTable n _ _ _ => if n == "scripts" then .error "disk full" else execStmt st d
  | _ => execStmt st d

/-- Helper: a successful structural statement preserves every existing table
and index and never touches the data rows. -/
theorem execStmt_ok_inv (st : Stmt) (d d₂ : DBState) (h : execStmt st d = .ok d₂) :
    (∀ n, n ∈ d.tables → n ∈ d₂.tables) ∧ (∀ n, n ∈ d.indices → n ∈ d₂.indices) ∧
    d₂.rows = d.rows := by
  cases st with
  | pragma b =>
    simp [execStmt] at h
    subst h
    exact ⟨fun n hn => hn, fun n hn => hn, rfl⟩
  | createTable n c strict fks =>
    by_cases hn : n ∈ d.tables
    · simp [execStmt, hn] at h
      subst h
      exact ⟨fun m hm => hm, fun m hm => hm, rfl⟩
    · simp [execStmt, hn] at h
      subst h
      exact ⟨fun m hm => List.mem_append_left _ hm, fun m hm => hm, rfl⟩
  | createIndex u n t c =>
    by_cases hn : n ∈ d.indices
    · simp [execStmt, hn] at h
      subst h
      exact ⟨fun m hm => hm, fun m hm => hm, rfl⟩
    · by_cases ht : t ∈ d.tables
      · simp [execStmt, hn, ht] at h
        subst h
        exact ⟨fun m hm => hm, fun m hm => List.mem_append_left _ hm, rfl⟩
      · simp [execStmt, hn, ht] at h

/-- Helper: a successful CREATE TABLE IF NOT EXISTS leaves its table present. -/
theorem execStmt_table_est (n : String) (c : List Column) (strict : Bool)
    (fks : List (String × String × String)) (d d₂ : DBState)
    (h : execStmt (.createTable n c strict fks) d = .ok d₂) : n ∈ d₂.tables := by
  by_cases hn : n ∈ d.tables
  · simp [execStmt, hn] at h
    subst h
    exact hn
  · simp [execStmt, hn] at h
    subst h
    exact List.mem_append_right _ (by simp)

/-- Helper: a successful CREATE INDEX IF NOT EXISTS leaves its index present. -/
theorem execStmt_index_est (u : Bool) (n t : String) (c : List String)
    (d d₂ : DBState) (h : execStmt (.createIndex u n t c) d = .ok d₂) :
    n ∈ d₂.indices := by
  by_cases hn : n ∈ d.indices
  · simp [execStmt, hn] at h
    subst h
    exact hn
  · by_cases ht : t ∈ d.tables
    · simp [execStmt, hn, ht] at h
      subst h
      exact List.mem_append_right _ (by simp)
    · simp [execStmt, hn, ht] at h

/-- Helper: a successful run of statements preserves tables, indices and
rows of the starting store. -/
theorem runStmts_ok_inv (l : List Stmt) (d d₂ : DBState)
    (h : runStmts execStmt l d = .ok d₂) :
    (∀ n, n ∈ d.tables → n ∈ d₂.tables) ∧ (∀ n, n ∈ d.indices → n ∈ d₂.indices) ∧
    d₂.rows = d.rows := by
  induction l generalizing d with
  | nil =>
    simp [runStmts] at h
    subst h
    exact ⟨fun n hn => hn, fun n hn => hn, rfl⟩
  | cons a rest ih =>
    cases ha : execStmt a d with
    | error e => simp [runStmts, ha] at h
    | ok d1 =>
      simp [runStmts, ha] at h
      obtain ⟨m1, m2, m3⟩ := execStmt_ok_inv a d d1 ha
      obtain ⟨k1, k2, k3⟩ := ih d1 h
      exact ⟨fun n hn => k1 n (m1 n hn), fun n hn => k2 n (m2 n hn), by rw [k3, m3]⟩

/-- Helper: after a successful run, every CREATE TABLE of the list has its
table present in the resulting store. -/
theorem runStmts_table_est (l : List Stmt) (d d₂ : DBState)
    (h : runStmts execStmt l d = .ok d₂) (n : String) (c : List Column)
    (strict : Bool) (fks : List (String × String × String))
    (hm : Stmt.createTable n c strict fks ∈ l) : n ∈ d₂.tables := by
  induction l generalizing d with
  | nil => cases hm
  | cons a rest ih =>
    cases ha : execStmt a d with
    | error e => simp [runStmts, ha] at h
    | ok d1 =>
      simp [runStmts, ha] at h
      rcases List.mem_cons.mp hm with hEq | hTail
      · rw [← hEq] at ha
        exact (runStmts_ok_inv rest d1 d₂ h).1 n
          (execStmt_table_est n c strict fks d d1 ha)
      · exact ih d1 h hTail

/-- Helper: after a successful run, every CREATE INDEX of the list has its
index present in the resulting store. -/
theorem runStmts_index_est (l : List Stmt) (d d₂ : DBState)
    (h : runStmts execStmt l d = .ok d₂) (u : Bool) (n t : String)
    (c : List String) (hm : Stmt.createIndex u n t c ∈ l) : n ∈ d₂.indices := by
  induction l generalizing d with
  | nil => cases hm
  | cons a rest ih =>
    cases ha : execStmt a d with
    | error e => simp [runStmts, ha] at h
    | ok d1 =>
      simp [runStmts, ha] at h
      rcases List.mem_cons.mp hm with hEq | hTail
      · rw [← hEq] at ha
        exact (runStmts_ok_inv rest d1 d₂ h).2.1 n
          (execStmt_index_est u n t c d d1 ha)
      · exact ih d1 h hTail

/-- Helper: when all four tables and all five indices already exist, every
bootstrap statement is a no-op and the whole bootstrap succeeds without
changing the store. -/
theorem createSchema_noop (d : DBState)
    (t1 : "ident" ∈ d.tables) (t2 : "scripts" ∈ d.tables) (t3 : "words" ∈ d.tables)
    (t4 : "log" ∈ d.tables) (i1 : "ident_bible_idx" ∈ d.indices)
    (i2 : "scripts_idx" ∈ d.indices) (i3 : "script_num_idx" ∈ d.indices)
    (i4 : "scripts_file_idx" ∈ d.indices) (i5 : "words_idx" ∈ d.indices) :
    createSchema d = .ok d := by
  simp [createSchema, stmts, runStmts, execStmt, stmtPragma, stmtIdent, stmtIdentIdx,
    stmtScripts, stmtScriptsIdx, stmtScriptNumIdx, stmtScriptsFileIdx, stmtWords,
    stmtWordsIdx, stmtLog, t1, t2, t3, t4, i1, i2, i3, i4, i5]

/-- Helper: a run that succeeds on the whole list hands every statement of
the list to the engine, in order. -/
theorem runStmts_trace_ok (exec : Stmt → DBState → Except String DBState)
    (l : List Stmt) (d d₂ : DBState) (h : runStmts exec l d = .ok d₂) :
    runStmtsT exec l d = (.ok d₂, l) := by
  induction l generalizing d with
  | nil =>
    simp [runStmts] at h
    subst h
    simp [runStmtsT]
  | cons a rest ih =>
    cases ha : exec a d with
    | error e => simp [runStmts, ha] at h
    | ok d1 =>
      simp [runStmts, ha] at h
      simp [runStmtsT, ha, ih d1 h]

/-- Helper: when the statements before `st` succeed and `st` fails, the run
of the whole list fails with the error of `st`, and exactly the statements
up to and including `st` are handed to the engine. -/
theorem runStmtsT_fail_after (exec : Stmt → DBState → Except String DBState)
    (pre : List Stmt) (st : Stmt) (rest : List Stmt) (d d₁ : DBState) (e : String)
    (hpre : runStmts exec pre d = .ok d₁) (hst : exec st d₁ = .error e) :
    runStmts exec (pre ++ st :: rest) d = .error e ∧
    runStmtsT exec (pre ++ st :: rest) d = (.error e, pre ++ [st]) := by
  induction pre generalizing d with
  | nil =>
    simp [runStmts] at hpre
    subst hpre
    exact ⟨by simp [runStmts, hst], by simp [runStmtsT, hst]⟩
  | cons a pre ih =>
    cases ha : exec a d with
    | error e2 => simp [runStmts, ha] at hpre
    | ok d1 =>
      simp [runStmts, ha] at hpre
      obtain ⟨g1, g2⟩ := ih d1 hpre
      exact ⟨by simp [runStmts, ha, g1], by simp [runStmtsT, ha, g2]⟩

/-- C1: Acquire on a pipe-classified stdin followed immediately by Emit on a
pipe-classified stdout, with no intervening mutation and every external call
succeeding, writes to stdout exactly the input bytes as transformed by the
connection-open/close side effects the engine itself performs; when the
engine performs none, the output is byte-identical to the input. -/
theorem acquire_then_emit_passthrough (w : World) (input : List Nat)
    (h1 : w.createTempOk = true) (h2 : w.copyInOk = true) (h3 : w.sqlOpenOk = true)
    (h4 : w.pingOk = true) (h5 : w.schemaOk = true) (h6 : w.closeOk = true)
    (h7 : w.openOutOk = true) (h8 : w.copyOutOk = true) :
    (OpenDB w input false init0).1 = .ok tmpName ∧
    (OutputDB w false (OpenDB w input false init0).2).1 = .ok () ∧
    (OutputDB w false (OpenDB w input false init0).2).2.stdoutB =
      w.closeEff (w.schemaEff (w.pingEff input)) ∧
    ((∀ b, w.pingEff b = b) → (∀ b, w.schemaEff b = b) → (∀ b, w.closeEff b = b) →
      (OutputDB w false (OpenDB w input false init0).2).2.stdoutB = input) := by
  have hO : OpenDB w input false init0 =
      (.ok tmpName, ⟨some (w.schemaEff (w.pingEff input)), [], [], true, true⟩) := by
    simp [OpenDB, readDB, init0, h1, h2, h3, h4, h5]
  have hE : OutputDB w false (OpenDB w input false init0).2 =
      (.ok (), ⟨none, w.closeEff (w.schemaEff (w.pingEff input)), [], false, true⟩) := by
    rw [hO]
    simp [OutputDB, writeDB, h6, h7, h8]
  refine ⟨by rw [hO], by rw [hE], by rw [hE], fun hp hs hc => by rw [hE, hp, hs, hc]⟩

/-- C1 witness with the all-success identity-effect oracle on input [1, 2]. -/
theorem acquire_then_emit_passthrough_example :
    (OpenDB wOK [1, 2] false init0).1 = .ok tmpName ∧
    (OutputDB wOK false (OpenDB wOK [1, 2] false init0).2).2.stdoutB = [1, 2] :=
  ⟨(acquire_then_emit_passthrough wOK [1, 2] rfl rfl rfl rfl rfl rfl rfl rfl).1,
   (acquire_then_emit_passthrough wOK [1, 2] rfl rfl rfl rfl rfl rfl rfl rfl).2.2.2
     (fun _ => rfl) (fun _ => rfl) (fun _ => rfl)⟩

/-- C2: once the temp file has been created, every failure path of Acquire
(input copy, sql open, ping, schema bootstrap) removes the backing store
before the error is returned. -/
theorem acquire_failure_removes_backing_store (w : World) (input : List Nat)
    (terminal : Bool) (s : SState) (hct : w.createTempOk = true) (e : Err)
    (s₂ : SState) (h : OpenDB w input terminal s = (.error e, s₂)) :
    s₂.tmp = none := by
  unfold OpenDB readDB at h
  cases terminal <;> cases hc : w.copyInOk <;> cases ho : w.sqlOpenOk <;>
    cases hp : w.pingOk <;> cases hx : w.schemaOk <;>
    simp [hct, hc, ho, hp, hx] at h <;>
    (obtain ⟨-, h2⟩ := h; rw [← h2])

/-- C2 witness: with a failing input copy the returned state holds no
backing store. -/
theorem acquire_failure_removes_backing_store_example :
    ((OpenDB wCopyFail [9] false init0).2).tmp = none :=
  acquire_failure_removes_backing_store wCopyFail [9] false init0 rfl
    Err.readingStdin ((OpenDB wCopyFail [9] false init0).2) rfl

/-- C7: Acquire on a terminal-classified stdin succeeds without ever reading
the input stream (so it cannot block on it), its backing store is the fresh
empty file as transformed by the engine only, and bootstrapping the empty
store yields exactly the four tables and five indices with no data rows. -/
theorem acquire_terminal_empty_schema (w : World) (input : List Nat) (s : SState)
    (h1 : w.createTempOk = true) (h3 : w.sqlOpenOk = true) (h4 : w.pingOk = true)
    (h5 : w.schemaOk = true) :
    ((OpenDB w input true s).1 = .ok tmpName ∧
     (OpenDB w input true s).2.inputRead = s.inputRead ∧
     (OpenDB w input true s).2.tmp = some (w.schemaEff (w.pingEff []))) ∧
    (createSchema emptyDB = .ok bootDB ∧ bootDB.rows = [] ∧
     bootDB.tables = ["ident", "scripts", "words", "log"] ∧
     bootDB.indices =
       ["ident_bible_idx", "scripts_idx", "script_num_idx", "scripts_file_idx",
        "words_idx"]) := by
  have hO : OpenDB w input true s =
      (.ok tmpName,
       { s with tmp := some (w.schemaEff (w.pingEff [])), dbOpen := true }) := by
    simp [OpenDB, readDB, h1, h3, h4, h5]
  exact ⟨⟨by rw [hO], by rw [hO], by rw [hO]⟩, rfl, rfl, rfl, rfl⟩

/-- C7 witness: the all-success oracle on input [3] from a fresh state. -/
theorem acquire_terminal_empty_schema_example :
    (OpenDB wOK [3] true init0).1 = .ok tmpName ∧
    (OpenDB wOK [3] true init0).2.inputRead = false :=
  ⟨(acquire_terminal_empty_schema wOK [3] init0 rfl rfl rfl rfl).1.1,
   (acquire_terminal_empty_schema wOK [3] init0 rfl rfl rfl rfl).1.2.1⟩

/-- C3: for every oracle, verdict and starting state, the backing store file
is gone once Emit (OutputDB) returns: on the terminal verdict and on the
pipe verdict, and both when the write succeeds and when writeDB fails, the
deferred remove has run. -/
theorem emit_always_removes_backing_store (w : World) (stdoutTerminal : Bool)
    (s : SState) : ((OutputDB w stdoutTerminal s).2).tmp = none := rfl

/-- C4: Emit on a terminal-classified stdout returns success, writes no byte
to stdout, appends exactly the two advisory lines to stderr, and closes the
handle.  This path never fails. -/
theorem emit_terminal_path (w : World) (s : SState) :
    (OutputDB w true s).1 = .ok () ∧
    (OutputDB w true s).2.stdoutB = s.stdoutB ∧
    (OutputDB w true s).2.stderrL = s.stderrL ++ [terminalNotice1, terminalNotice2] ∧
    (OutputDB w true s).2.dbOpen = false :=
  ⟨rfl, rfl, rfl, rfl⟩

/-- C8 counterexample: over a nil database handle the logging operations are
not all no-ops.  At the concrete component "c" and message "m", Error still
writes a line to stderr and Fatal still terminates the process. -/
theorem logger_nil_not_noop_cex :
    ((NewLogger none "c").Error true ["m"] ⟨[], [], false⟩).stderrL ≠ [] ∧
    ((NewLogger none "c").Fatal true ["m"] ⟨[], [], false⟩).exited = true := by
  exact ⟨by decide, rfl⟩

/-- C8 amended: over a nil database handle no operation writes to the
database and none crashes (all four are total): Info and Warn are complete
no-ops; Error performs no database write but still prints its stderr line;
Fatal does the Error behavior and then still terminates the process. -/
theorem logger_nil_amended (component : String) (insertOk : Bool)
    (args : List String) (s : ProcState) :
    (NewLogger none component).Info insertOk args s = s ∧
    (NewLogger none component).Warn insertOk args s = s ∧
    ((NewLogger none component).Error insertOk args s).logRows = s.logRows ∧
    ((NewLogger none component).Error insertOk args s).stderrL =
      s.stderrL ++ ["ERROR [" ++ component ++ "]: " ++ joinArgs args] ∧
    ((NewLogger none component).Fatal insertOk args s).logRows = s.logRows ∧
    ((NewLogger none component).Fatal insertOk args s).exited = true :=
  ⟨rfl, rfl, rfl, rfl, rfl, rfl⟩

/-- C9: ZeroFill pads "42" to width 5 as "00042", and any string already at
or beyond the target width is returned unchanged. -/
theorem zeroFill_spec :
    ZeroFill "42" 5 = some "00042" ∧
    ∀ (a : String) (size : Int), size ≤ (a.length : Int) → ZeroFill a size = some a := by
  refine ⟨by decide, ?_⟩
  intro a size h
  simp [ZeroFill, h]

/-- C9 witness at the concrete input "abc" with size 2. -/
theorem zeroFill_spec_example : ZeroFill "abc" 2 = some "abc" :=
  zeroFill_spec.2 "abc" 2 (by decide)

/-- C10: when size - len(a) exceeds 7 the slice of the seven-character zero
literal is out of range and ZeroFill panics (modelled `none`) instead of
returning a padded string; when 0 < size - len(a) and it is at most 7,
ZeroFill returns the zero-padded string of exactly the requested size. -/
theorem zeroFill_overflow (a : String) (size : Int) :
    (7 < size - (a.length : Int) → ZeroFill a size = none) ∧
    (0 < size - (a.length : Int) → size - (a.length : Int) ≤ 7 →
      ZeroFill a size = some (zeroPad a size) ∧
      ((zeroPad a size).length : Int) = size) := by
  constructor
  · intro h
    rw [ZeroFill, if_neg (by omega), if_neg (by omega)]
  · intro h1 h2
    refine ⟨by rw [ZeroFill, if_neg (by omega), if_pos h2]; rfl, ?_⟩
    have hlen : (zeroPad a size).length =
        (size - (a.length : Int)).toNat + a.length := by
      simp [zeroPad, String.length_append, String.length_mk]
    rw [hlen]
    omega

/-- C10 witness: padding "42" to width 10 panics (8 zeros needed, only 7
available), while width 5 pads to exactly 5 characters. -/
theorem zeroFill_overflow_example :
    ZeroFill "42" 10 = none ∧
    ZeroFill "42" 5 = some (zeroPad "42" 5) ∧ ((zeroPad "42" 5).length : Int) = 5 :=
  ⟨(zeroFill_overflow "42" 10).1 (by decide),
   ((zeroFill_overflow "42" 5).2 (by decide) (by decide)).1,
   ((zeroFill_overflow "42" 5).2 (by decide) (by decide)).2⟩

/-- C5: running the schema bootstrap a second time against the store a
successful bootstrap produced raises no error and creates no duplicate
structural object: the second run returns the very same store. -/
theorem createSchema_idempotent (d d₂ : DBState) (h : createSchema d = .ok d₂) :
    createSchema d₂ = .ok d₂ := by
  have hr : runStmts execStmt stmts d = .ok d₂ := h
  exact createSchema_noop d₂
    (runStmts_table_est stmts d d₂ hr "ident" identCols true []
      (by simp [stmts, stmtIdent]))
    (runStmts_table_est stmts d d₂ hr "scripts" scriptsCols true
      [("dataset_id", "ident", "dataset_id")] (by simp [stmts, stmtScripts]))
    (runStmts_table_est stmts d d₂ hr "words" wordsCols true
      [("script_id", "scripts", "script_id")] (by simp [stmts, stmtWords]))
    (runStmts_table_est stmts d d₂ hr "log" logCols true []
      (by simp [stmts, stmtLog]))
    (runStmts_index_est stmts d d₂ hr true "ident_bible_idx" "ident" ["bible_id"]
      (by simp [stmts, stmtIdentIdx]))
    (runStmts_index_est stmts d d₂ hr true "scripts_idx" "scripts"
      ["book_id", "chapter_num", "verse_str"] (by simp [stmts, stmtScriptsIdx]))
    (runStmts_index_est stmts d d₂ hr false "script_num_idx" "scripts"
      ["script_num"] (by simp [stmts, stmtScriptNumIdx]))
    (runStmts_index_est stmts d d₂ hr false "scripts_file_idx" "scripts"
      ["audio_file"] (by simp [stmts, stmtScriptsFileIdx]))
    (runStmts_index_est stmts d d₂ hr true "words_idx" "words"
      ["script_id", "word_seq"] (by simp [stmts, stmtWordsIdx]))

/-- C5 witness: bootstrapping the store produced by bootstrapping the empty
store changes nothing and raises no error. -/
theorem createSchema_idempotent_example : createSchema bootDB = .ok bootDB :=
  createSchema_idempotent emptyDB bootDB rfl

/-- C6: the bootstrap sequence holds exactly four table definitions and five
index definitions, every foreign key references a table created strictly
earlier in the sequence (ident before scripts, scripts before words), and a
failure of any single statement aborts the whole bootstrap with that error,
with no later statement handed to the engine. -/
theorem createSchema_statement_structure :
    (stmts.filter isCreateTable).length = 4 ∧
    (stmts.filter isCreateIndex).length = 5 ∧
    fkParentsFirst stmts = true ∧
    ∀ (exec : Stmt → DBState → Except String DBState) (pre : List Stmt) (st : Stmt)
      (rest : List Stmt) (d d₁ : DBState) (e : String),
      stmts = pre ++ st :: rest → runStmts exec pre d = .ok d₁ →
      exec st d₁ = .error e →
      runStmts exec stmts d = .error e ∧
      runStmtsT exec stmts d = (.error e, pre ++ [st]) := by
  refine ⟨by decide, by decide, by decide, ?_⟩
  intro exec pre st rest d d₁ e hsplit hpre hst
  rw [hsplit]
  exact runStmtsT_fail_after exec pre st rest d d₁ e hpre hst

/-- C6 witness: an engine rejecting the scripts CREATE TABLE aborts the
bootstrap there; only the pragma, ident, the ident index and the failing
scripts statement reach the engine, none of the six later statements. -/
theorem createSchema_statement_structure_example :
    runStmts execFailScripts stmts emptyDB = .error "disk full" ∧
    runStmtsT execFailScripts stmts emptyDB =
      (.error "disk full", [stmtPragma, stmtIdent, stmtIdentIdx, stmtScripts]) :=
  createSchema_statement_structure.2.2.2 execFailScripts
    [stmtPragma, stmtIdent, stmtIdentIdx] stmtScripts
    [stmtScriptsIdx, stmtScriptNumIdx, stmtScriptsFileIdx, stmtWords, stmtWordsIdx,
     stmtLog]
    emptyDB ⟨["ident"], ["ident_bible_idx"], []⟩ "disk full" rfl rfl rfl

end IoLib
